import Mathlib

/-!
Verification of the port-scanner orchestration engine.

Shallow embedding of the Go port scanner (src/main.go, src/adds/scanIcmp.go,
src/service).  Network I/O is abstracted by a `Network` environment supplying
the outcome of every dial / write / read; each probe function additionally
returns the list of network actions it performed.  Goroutine scheduling is
abstracted by a `ScanExec` assignment recording which worker consumed which
values from the shared channels; Go channel semantics (every sent value is
received by exactly one receiver, workers drain a closed channel to the end)
is the `ScanExec.Valid` hypothesis.  The orchestrator `PortScanner.Scan` is
embedded as the deterministic trace of channel operations the Go code
performs, and blocking receives are interpreted by `recvRun` against the
number of tokens the workers supply.
-/

/-- A single network action performed by a probe. -/
inductive NetAct where
  | dial (network : String) (address : String) (timeoutSec : Nat)
  | closeConn
  | write (payload : String)
  | setReadDeadline (sec : Nat)
  | read
  deriving DecidableEq

/-- The network environment: outcomes of the system calls the scanner makes.
`dial net addr t` is the outcome of `net.DialTimeout(net, addr, t seconds)`;
`writeUDP addr payload` the outcome of `conn.Write` on the UDP connection to
`addr`; `readUDP addr` the outcome of the deadline-bounded `conn.Read`. -/
structure Network where
  dial : String → String → Nat → Except String Unit
  writeUDP : String → String → Except String Nat
  readUDP : String → Except String Nat

/-- Embedding of `ScanPortTCP` (src/main.go:23-32): dial `ip:port` over TCP with a
10-second timeout; any dial error gives "Closed", success gives "Open" after
closing the connection.  Second component: the network actions performed. -/
def ScanPortTCP (net : Network) (ip : String) (port : Nat) : String × List NetAct :=
  let address := ip ++ ":" ++ toString port
  match net.dial "tcp" address 10 with
  | .error _ => ("Closed", [.dial "tcp" address 10])
  | .ok _ => ("Open", [.dial "tcp" address 10, .closeConn])

/-- Embedding of `ScanUDP` (src/main.go:46-69): dial `domain:port` over UDP with a
5-second timeout, write the payload "ping", set a 5-second read deadline and
read; the first error is returned, otherwise `ok`.  The deferred `conn.Close()`
runs on every path after a successful dial. -/
def ScanUDP (net : Network) (port : Nat) (domain : String) :
    Except String Unit × List NetAct :=
  let address := domain ++ ":" ++ toString port
  match net.dial "udp" address 5 with
  | .error e => (.error e, [.dial "udp" address 5])
  | .ok _ =>
    match net.writeUDP address "ping" with
    | .error e => (.error e, [.dial "udp" address 5, .write "ping", .closeConn])
    | .ok _ =>
      match net.readUDP address with
      | .error e =>
          (.error e,
           [.dial "udp" address 5, .write "ping", .setReadDeadline 5, .read, .closeConn])
      | .ok _ =>
          (.ok (),
           [.dial "udp" address 5, .write "ping", .setReadDeadline 5, .read, .closeConn])

/-- Embedding of `ScanICMP` (src/main.go:82-90 and src/adds/scanIcmp.go:19-27):
dial the address over `ip4:icmp` with a 5-second timeout; a dial error gives
"Unreachable", success gives "Reachable" after closing the connection. -/
def ScanICMP (net : Network) (ip : String) : String × List NetAct :=
  match net.dial "ip4:icmp" ip 5 with
  | .error _ => ("Unreachable", [.dial "ip4:icmp" ip 5])
  | .ok _ => ("Reachable", [.dial "ip4:icmp" ip 5, .closeConn])

/-- Modelled from the spec: the `service` package implementation is not under src/
(only its test src/service/services_test.go and its callers are).  The spec's
ServiceRecord is "{port, protocol, service name, detection response}"; the field
names and values are fixed by the tests. -/
structure ServiceVersion where
  Port : Nat
  Protocol : String
  Service : String
  Response : String
  deriving DecidableEq

/-- Modelled from the spec: `service.DetectService` is not under src/.  The spec's
Service Lookup "maps a port number to a human-readable service name; pure function
over an immutable table", with a fallback name when the port is absent; the exact
record fields are fixed by src/service/services_test.go (known port ⇒ the table's
name and "Service Detected", unknown port ⇒ "Unknown" and "Service Not Detected"). -/
def DetectService (port : Nat) (services : List (Nat × String)) : ServiceVersion :=
  match services.lookup port with
  | some name =>
      { Port := port, Protocol := "Unknown", Service := name,
        Response := "Service Detected" }
  | none =>
      { Port := port, Protocol := "Unknown", Service := "Unknown",
        Response := "Service Not Detected" }

/-- Everything one TCP or UDP worker sends on its outgoing channels:
the tokens sent to the result channel, the records sent to the open-port
channel, the per-port classifications it prints, and the completion tokens
sent to the done channel. -/
structure WorkerOut where
  results : List Nat
  openPorts : List ServiceVersion
  states : List (Nat × String)
  doneTokens : Nat
  deriving DecidableEq

/-- Embedding of `WorkerTCP` (src/main.go:105-116) run on the ports it dequeued
from the shared port channel: for each port, scan it, look up the service, send
the port to the result channel, and send the record to the open channel only when
the state is "Open"; after the channel closes, send one completion token. -/
def WorkerTCP (net : Network) (ip : String) (services : List (Nat × String)) :
    List Nat → WorkerOut
  | [] => { results := [], openPorts := [], states := [], doneTokens := 1 }
  | port :: rest =>
    let state := (ScanPortTCP net ip port).1
    let svc := DetectService port services
    let tail := WorkerTCP net ip services rest
    { results := port :: tail.results
      openPorts := (if state = "Open" then [svc] else []) ++ tail.openPorts
      states := (port, state) :: tail.states
      doneTokens := tail.doneTokens }

/-- Embedding of `WorkerUDP` (src/main.go:131-144) run on the ports it dequeued:
for each port, probe it with `ScanUDP`; on `ok` the state is "Open" and the
service record is sent, on any error the state stays "Closed" and nothing is
sent to the open channel; the port is always sent to the result channel;
one completion token at the end. -/
def WorkerUDP (net : Network) (domain : String) (services : List (Nat × String)) :
    List Nat → WorkerOut
  | [] => { results := [], openPorts := [], states := [], doneTokens := 1 }
  | port :: rest =>
    let err := (ScanUDP net port domain).1
    let tail := WorkerUDP net domain services rest
    { results := port :: tail.results
      openPorts :=
        (match err with
         | .ok _ => [DetectService port services]
         | .error _ => []) ++ tail.openPorts
      states :=
        (port, match err with | .ok _ => "Open" | .error _ => "Closed") :: tail.states
      doneTokens := tail.doneTokens }

/-- Everything one ICMP worker sends: the reachability result strings, the
network actions of its probes, and the completion tokens. -/
structure ICMPOut where
  results : List String
  acts : List NetAct
  doneTokens : Nat
  deriving DecidableEq

/-- Embedding of `WorkerICMP` (src/main.go:156-163) run on the addresses it
dequeued from the shared IP channel: for each address, one `ScanICMP` probe and
one result string; one completion token after the channel closes. -/
def WorkerICMP (net : Network) : List String → ICMPOut
  | [] => { results := [], acts := [], doneTokens := 1 }
  | ip :: rest =>
    let s := ScanICMP net ip
    let tail := WorkerICMP net rest
    { results := ("IP: " ++ ip ++ ", Response: " ++ s.1) :: tail.results
      acts := s.2 ++ tail.acts
      doneTokens := tail.doneTokens }

/-- Embedding of the `PortScanner` struct (src/main.go:190-202).  Go channels are
represented by their buffer capacities (`...Cap` fields); their contents flow
through the worker models and the `Scan` trace. -/
structure PortScanner where
  Domain : String
  IPs : List String
  Ports : List Nat
  NumWorkers : Nat
  PortChannelCap : Nat
  ResultChannelCap : Nat
  OpenPortsCap : Nat
  OpenPortsUDPCap : Nat
  ICMPResultsCap : Nat
  DoneCap : Nat
  Services : List (Nat × String)

/-- The port list NewTarget builds: 1 up to 65535 inclusive. -/
def newTargetPorts : List Nat := List.range' 1 65535

/-- Embedding of `NewTarget` (src/main.go:217-244).  DNS resolution is the external
collaborator `lookupHost`; on a resolution error the error is returned and no
scanner is built.  The static `service.Services` table (not under src/) is the
parameter `services`.  Channel capacities match the `make` calls. -/
def NewTarget (lookupHost : String → Except String (List String))
    (services : List (Nat × String)) (domain : String) (numWorkers : Nat) :
    Except String PortScanner :=
  match lookupHost domain with
  | .error e => .error e
  | .ok ips =>
    .ok { Domain := domain
          IPs := ips
          Ports := newTargetPorts
          NumWorkers := numWorkers
          PortChannelCap := newTargetPorts.length
          ResultChannelCap := newTargetPorts.length
          OpenPortsCap := newTargetPorts.length
          OpenPortsUDPCap := newTargetPorts.length
          ICMPResultsCap := ips.length
          DoneCap := numWorkers * 2 + ips.length
          Services := services }

/-- One channel operation performed by the orchestrator goroutine in `Scan`. -/
inductive Ev where
  | sendPort (p : Nat)
  | closePorts
  | sendIP (ip : String)
  | closeIPs
  | recvResult
  | recvDone
  | closeOpenTCP
  | closeOpenUDP
  | closeICMP
  deriving DecidableEq

/-- The completion-wait loop of `Scan` (src/main.go:285-289): receive from the
done channel while `doneCount < threshold`, incrementing the counter. -/
def doneLoop (threshold : Nat) (doneCount : Nat) : List Ev :=
  if doneCount < threshold then Ev.recvDone :: doneLoop threshold (doneCount + 1)
  else []
termination_by threshold - doneCount
decreasing_by omega

/-- Embedding of `PortScanner.Scan` (src/main.go:251-295) as the sequence of channel
operations the orchestrator performs, in program order: enqueue every port, close
the port channel, enqueue every IP, close the IP channel, drain the result channel
once per port, receive `NumWorkers*2 + len(IPs)` completion tokens, then close the
three result channels.  (The goroutine launches at lines 256-264 are modelled by
the `ScanExec` worker runs.) -/
def PortScanner.Scan (t : PortScanner) : List Ev :=
  t.Ports.map Ev.sendPort ++ [Ev.closePorts]
    ++ t.IPs.map Ev.sendIP ++ [Ev.closeIPs]
    ++ t.Ports.map (fun _ => Ev.recvResult)
    ++ doneLoop (t.NumWorkers * 2 + t.IPs.length) 0
    ++ [Ev.closeOpenTCP, Ev.closeOpenUDP, Ev.closeICMP]

/-- Interpret the orchestrator's trace against the numbers of tokens the workers
supply on the result channel (`r`) and the done channel (`d`).  A receive from an
empty supply blocks forever (`none`); otherwise the remaining supplies are
returned.  Sends and closes never block here (see the capacity theorem). -/
def recvRun : List Ev → Nat → Nat → Option (Nat × Nat)
  | [], r, d => some (r, d)
  | Ev.sendPort _ :: rest, r, d => recvRun rest r d
  | Ev.closePorts :: rest, r, d => recvRun rest r d
  | Ev.sendIP _ :: rest, r, d => recvRun rest r d
  | Ev.closeIPs :: rest, r, d => recvRun rest r d
  | Ev.recvResult :: _, 0, _ => none
  | Ev.recvResult :: rest, r + 1, d => recvRun rest r d
  | Ev.recvDone :: _, _, 0 => none
  | Ev.recvDone :: rest, r, d + 1 => recvRun rest r d
  | Ev.closeOpenTCP :: rest, r, d => recvRun rest r d
  | Ev.closeOpenUDP :: rest, r, d => recvRun rest r d
  | Ev.closeICMP :: rest, r, d => recvRun rest r d

/-- One scheduling of a scan: which ports each of the `NumWorkers` TCP workers and
each of the `NumWorkers` UDP workers dequeued from the shared port channel, and
which addresses each of the `len(IPs)` ICMP workers dequeued from the IP channel. -/
structure ScanExec where
  tcpAsgn : List (List Nat)
  udpAsgn : List (List Nat)
  icmpAsgn : List (List String)

/-- Go channel semantics for a scan of `t`: there is one assignment list per
launched worker, every value sent on the closed port channel is dequeued by
exactly one TCP or UDP worker, and every address sent on the closed IP channel
is dequeued by exactly one ICMP worker (multiset equality via `Perm`). -/
def ScanExec.Valid (t : PortScanner) (e : ScanExec) : Prop :=
  e.tcpAsgn.length = t.NumWorkers ∧
  e.udpAsgn.length = t.NumWorkers ∧
  e.icmpAsgn.length = t.IPs.length ∧
  (e.tcpAsgn ++ e.udpAsgn).flatten.Perm t.Ports ∧
  e.icmpAsgn.flatten.Perm t.IPs

/-- The outputs of the TCP workers under scheduling `e`. -/
def tcpOuts (net : Network) (t : PortScanner) (e : ScanExec) : List WorkerOut :=
  e.tcpAsgn.map (WorkerTCP net "" t.Services)

/-- The outputs of the UDP workers under scheduling `e`. -/
def udpOuts (net : Network) (t : PortScanner) (e : ScanExec) : List WorkerOut :=
  e.udpAsgn.map (WorkerUDP net "" t.Services)

/-- The outputs of the ICMP workers under scheduling `e`. -/
def icmpOuts (net : Network) (e : ScanExec) : List ICMPOut :=
  e.icmpAsgn.map (WorkerICMP net)

/-- All tokens sent to the shared result channel by TCP and UDP workers. -/
def totalResults (net : Network) (t : PortScanner) (e : ScanExec) : List Nat :=
  ((tcpOuts net t e).map WorkerOut.results).flatten
    ++ ((udpOuts net t e).map WorkerOut.results).flatten

/-- All records sent to the open-TCP-ports channel. -/
def totalOpenTCP (net : Network) (t : PortScanner) (e : ScanExec) : List ServiceVersion :=
  ((tcpOuts net t e).map WorkerOut.openPorts).flatten

/-- All records sent to the open-UDP-ports channel. -/
def totalOpenUDP (net : Network) (t : PortScanner) (e : ScanExec) : List ServiceVersion :=
  ((udpOuts net t e).map WorkerOut.openPorts).flatten

/-- All TCP classifications printed, as (port, state) pairs. -/
def tcpStates (net : Network) (t : PortScanner) (e : ScanExec) : List (Nat × String) :=
  ((tcpOuts net t e).map WorkerOut.states).flatten

/-- All UDP classifications printed, as (port, state) pairs. -/
def udpStates (net : Network) (t : PortScanner) (e : ScanExec) : List (Nat × String) :=
  ((udpOuts net t e).map WorkerOut.states).flatten

/-- All strings sent to the ICMP result channel. -/
def totalICMPResults (net : Network) (e : ScanExec) : List String :=
  ((icmpOuts net e).map ICMPOut.results).flatten

/-- All completion tokens sent to the done channel, across the three worker kinds. -/
def totalDoneTokens (net : Network) (t : PortScanner) (e : ScanExec) : Nat :=
  ((tcpOuts net t e).map WorkerOut.doneTokens).sum
    + ((udpOuts net t e).map WorkerOut.doneTokens).sum
    + ((icmpOuts net e).map ICMPOut.doneTokens).sum

/-- How many TCP classifications a scan records for port `p`. -/
def tcpClassCount (net : Network) (t : PortScanner) (e : ScanExec) (p : Nat) : Nat :=
  ((tcpStates net t e).map Prod.fst).count p

/-- How many UDP classifications a scan records for port `p`. -/
def udpClassCount (net : Network) (t : PortScanner) (e : ScanExec) (p : Nat) : Nat :=
  ((udpStates net t e).map Prod.fst).count p

/-! Basic facts about the worker embeddings -/

theorem WorkerTCP_results (net : Network) (ip : String) (services : List (Nat × String)) :
    ∀ asgn : List Nat, (WorkerTCP net ip services asgn).results = asgn := by
  intro asgn
  induction asgn with
  | nil => rfl
  | cons p rest ih => simp [WorkerTCP, ih]

theorem WorkerUDP_results (net : Network) (domain : String) (services : List (Nat × String)) :
    ∀ asgn : List Nat, (WorkerUDP net domain services asgn).results = asgn := by
  intro asgn
  induction asgn with
  | nil => rfl
  | cons p rest ih => simp [WorkerUDP, ih]

theorem WorkerTCP_doneTokens (net : Network) (ip : String) (services : List (Nat × String)) :
    ∀ asgn : List Nat, (WorkerTCP net ip services asgn).doneTokens = 1 := by
  intro asgn
  induction asgn with
  | nil => rfl
  | cons p rest ih => simp [WorkerTCP, ih]

theorem WorkerUDP_doneTokens (net : Network) (domain : String) (services : List (Nat × String)) :
    ∀ asgn : List Nat, (WorkerUDP net domain services asgn).doneTokens = 1 := by
  intro asgn
  induction asgn with
  | nil => rfl
  | cons p rest ih => simp [WorkerUDP, ih]

theorem WorkerICMP_doneTokens (net : Network) :
    ∀ asgn : List String, (WorkerICMP net asgn).doneTokens = 1 := by
  intro asgn
  induction asgn with
  | nil => rfl
  | cons ip rest ih => simp [WorkerICMP, ih]

theorem WorkerTCP_states_fst (net : Network) (ip : String) (services : List (Nat × String)) :
    ∀ asgn : List Nat, ((WorkerTCP net ip services asgn).states).map Prod.fst = asgn := by
  intro asgn
  induction asgn with
  | nil => rfl
  | cons p rest ih => simp [WorkerTCP, ih]

theorem WorkerUDP_states_fst (net : Network) (domain : String) (services : List (Nat × String)) :
    ∀ asgn : List Nat, ((WorkerUDP net domain services asgn).states).map Prod.fst = asgn := by
  intro asgn
  induction asgn with
  | nil => rfl
  | cons p rest ih => simp [WorkerUDP, ih]

theorem WorkerTCP_openPorts_length (net : Network) (ip : String)
    (services : List (Nat × String)) :
    ∀ asgn : List Nat, (WorkerTCP net ip services asgn).openPorts.length ≤ asgn.length := by
  intro asgn
  induction asgn with
  | nil => simp [WorkerTCP]
  | cons p rest ih =>
    simp only [WorkerTCP, List.length_append, List.length_cons]
    split <;> simp <;> omega

theorem WorkerUDP_openPorts_length (net : Network) (domain : String)
    (services : List (Nat × String)) :
    ∀ asgn : List Nat, (WorkerUDP net domain services asgn).openPorts.length ≤ asgn.length := by
  intro asgn
  induction asgn with
  | nil => simp [WorkerUDP]
  | cons p rest ih =>
    simp only [WorkerUDP, List.length_append, List.length_cons]
    split <;> simp <;> omega

theorem WorkerTCP_openPorts_mem (net : Network) (ip : String)
    (services : List (Nat × String)) :
    ∀ asgn : List Nat, ∀ sv ∈ (WorkerTCP net ip services asgn).openPorts,
      ∃ p ∈ asgn, sv = DetectService p services := by
  intro asgn
  induction asgn with
  | nil => intro sv h; simp [WorkerTCP] at h
  | cons p rest ih =>
    intro sv h
    simp only [WorkerTCP, List.mem_append] at h
    rcases h with h | h
    · refine ⟨p, List.mem_cons_self .., ?_⟩
      by_cases hs : (ScanPortTCP net ip p).1 = "Open" <;> simp [hs] at h
      exact h
    · obtain ⟨q, hq, hsv⟩ := ih sv h
      exact ⟨q, List.mem_cons_of_mem _ hq, hsv⟩

theorem WorkerUDP_openPorts_mem (net : Network) (domain : String)
    (services : List (Nat × String)) :
    ∀ asgn : List Nat, ∀ sv ∈ (WorkerUDP net domain services asgn).openPorts,
      ∃ p ∈ asgn, sv = DetectService p services := by
  intro asgn
  induction asgn with
  | nil => intro sv h; simp [WorkerUDP] at h
  | cons p rest ih =>
    intro sv h
    simp only [WorkerUDP, List.mem_append] at h
    rcases h with h | h
    · refine ⟨p, List.mem_cons_self .., ?_⟩
      cases herr : (ScanUDP net p domain).1 <;> simp [herr] at h
      exact h
    · obtain ⟨q, hq, hsv⟩ := ih sv h
      exact ⟨q, List.mem_cons_of_mem _ hq, hsv⟩

theorem WorkerICMP_results_eq (net : Network) :
    ∀ asgn : List String, (WorkerICMP net asgn).results =
      asgn.map (fun ip => "IP: " ++ ip ++ ", Response: " ++ (ScanICMP net ip).1) := by
  intro asgn
  induction asgn with
  | nil => rfl
  | cons ip rest ih => simp [WorkerICMP, ih]

theorem ScanICMP_acts_count (net : Network) (ip addr : String) :
    ((ScanICMP net ip).2).count (NetAct.dial "ip4:icmp" addr 5) =
      if ip = addr then 1 else 0 := by
  unfold ScanICMP
  cases net.dial "ip4:icmp" ip 5 <;>
    by_cases h : ip = addr <;>
    simp_all [List.count_cons, List.count_nil]

theorem WorkerICMP_acts_dial_count (net : Network) (addr : String) :
    ∀ asgn : List String,
      ((WorkerICMP net asgn).acts).count (NetAct.dial "ip4:icmp" addr 5) =
        asgn.count addr := by
  intro asgn
  induction asgn with
  | nil => rfl
  | cons ip rest ih =>
    simp only [WorkerICMP, List.count_append, ih, ScanICMP_acts_count, List.count_cons]
    by_cases h : ip = addr
    · simp [h]
      omega
    · simp [h]

theorem DetectService_Port (port : Nat) (services : List (Nat × String)) :
    (DetectService port services).Port = port := by
  unfold DetectService
  cases services.lookup port <;> rfl

/-! The completion-wait loop and the receive interpreter -/

theorem doneLoop_eq_aux (t : Nat) :
    ∀ n c, t - c = n → doneLoop t c = List.replicate n Ev.recvDone := by
  intro n
  induction n with
  | zero =>
    intro c h
    rw [doneLoop]
    have hc : ¬ c < t := by omega
    simp [hc]
  | succ k ih =>
    intro c h
    rw [doneLoop]
    have hc : c < t := by omega
    simp only [if_pos hc, List.replicate_succ]
    exact congrArg _ (ih (c + 1) (by omega))

theorem doneLoop_eq (t : Nat) : doneLoop t 0 = List.replicate t Ev.recvDone :=
  doneLoop_eq_aux t t 0 (by omega)

theorem recvRun_append (xs ys : List Ev) (r d : Nat) :
    recvRun (xs ++ ys) r d = (recvRun xs r d).bind (fun p => recvRun ys p.1 p.2) := by
  induction xs generalizing r d with
  | nil => simp [recvRun]
  | cons e rest ih =>
    cases e <;> try simpa [recvRun] using ih r d
    · cases r with
      | zero => simp [recvRun]
      | succ r' => simpa [recvRun] using ih r' d
    · cases d with
      | zero => simp [recvRun]
      | succ d' => simpa [recvRun] using ih r d'

theorem recvRun_sendPorts (l : List Nat) (r d : Nat) :
    recvRun (l.map Ev.sendPort) r d = some (r, d) := by
  induction l with
  | nil => rfl
  | cons p rest ih => simpa [recvRun] using ih

theorem recvRun_sendIPs (l : List String) (r d : Nat) :
    recvRun (l.map Ev.sendIP) r d = some (r, d) := by
  induction l with
  | nil => rfl
  | cons ip rest ih => simpa [recvRun] using ih

theorem recvRun_results (n d : Nat) :
    recvRun (List.replicate n Ev.recvResult) n d = some (0, d) := by
  induction n with
  | zero => rfl
  | succ k ih => simpa [List.replicate_succ, recvRun] using ih

theorem recvRun_dones (n r : Nat) :
    recvRun (List.replicate n Ev.recvDone) r n = some (r, 0) := by
  induction n with
  | zero => rfl
  | succ k ih => simpa [List.replicate_succ, recvRun] using ih

/-! Aggregate counting lemmas -/

theorem sum_replicate_one (n : Nat) : (List.replicate n (1 : Nat)).sum = n := by
  induction n with
  | zero => rfl
  | succ k ih =>
    simp [List.replicate_succ, ih]
    omega

theorem tcpOuts_doneTokens (net : Network) (t : PortScanner) (e : ScanExec) :
    ((tcpOuts net t e).map WorkerOut.doneTokens).sum = e.tcpAsgn.length := by
  unfold tcpOuts
  rw [List.map_map]
  have h : ∀ a : List Nat,
      (WorkerOut.doneTokens ∘ WorkerTCP net "" t.Services) a = (fun _ => (1 : Nat)) a :=
    fun a => WorkerTCP_doneTokens net "" t.Services a
  rw [List.map_congr_left (fun a _ => h a), List.map_const', sum_replicate_one]

theorem udpOuts_doneTokens (net : Network) (t : PortScanner) (e : ScanExec) :
    ((udpOuts net t e).map WorkerOut.doneTokens).sum = e.udpAsgn.length := by
  unfold udpOuts
  rw [List.map_map]
  have h : ∀ a : List Nat,
      (WorkerOut.doneTokens ∘ WorkerUDP net "" t.Services) a = (fun _ => (1 : Nat)) a :=
    fun a => WorkerUDP_doneTokens net "" t.Services a
  rw [List.map_congr_left (fun a _ => h a), List.map_const', sum_replicate_one]

theorem icmpOuts_doneTokens (net : Network) (e : ScanExec) :
    ((icmpOuts net e).map ICMPOut.doneTokens).sum = e.icmpAsgn.length := by
  unfold icmpOuts
  rw [List.map_map]
  have h : ∀ a : List String,
      (ICMPOut.doneTokens ∘ WorkerICMP net) a = (fun _ => (1 : Nat)) a :=
    fun a => WorkerICMP_doneTokens net a
  rw [List.map_congr_left (fun a _ => h a), List.map_const', sum_replicate_one]

theorem tcpOuts_results (net : Network) (t : PortScanner) (e : ScanExec) :
    (tcpOuts net t e).map WorkerOut.results = e.tcpAsgn := by
  unfold tcpOuts
  rw [List.map_map]
  have h : ∀ a : List Nat,
      (WorkerOut.results ∘ WorkerTCP net "" t.Services) a = a :=
    fun a => WorkerTCP_results net "" t.Services a
  rw [List.map_id'' h]

theorem udpOuts_results (net : Network) (t : PortScanner) (e : ScanExec) :
    (udpOuts net t e).map WorkerOut.results = e.udpAsgn := by
  unfold udpOuts
  rw [List.map_map]
  have h : ∀ a : List Nat,
      (WorkerOut.results ∘ WorkerUDP net "" t.Services) a = a :=
    fun a => WorkerUDP_results net "" t.Services a
  rw [List.map_id'' h]

theorem totalResults_eq (net : Network) (t : PortScanner) (e : ScanExec) :
    totalResults net t e = (e.tcpAsgn ++ e.udpAsgn).flatten := by
  unfold totalResults
  rw [tcpOuts_results, udpOuts_results, List.flatten_append]

theorem recvRun_closePorts (rest : List Ev) (r d : Nat) :
    recvRun (Ev.closePorts :: rest) r d = recvRun rest r d := rfl

theorem recvRun_closeIPs (rest : List Ev) (r d : Nat) :
    recvRun (Ev.closeIPs :: rest) r d = recvRun rest r d := rfl

/-- C1 helper: the orchestrator's whole channel-operation trace evaluated against
the tokens actually supplied (one result token per enqueued port, one completion
token per launched worker). -/
theorem recvRun_scanTrace (t : PortScanner) :
    recvRun t.Scan t.Ports.length (t.NumWorkers * 2 + t.IPs.length) = some (0, 0) := by
  unfold PortScanner.Scan
  rw [List.append_assoc, List.append_assoc, List.append_assoc, List.append_assoc,
    List.append_assoc]
  rw [recvRun_append, recvRun_sendPorts, Option.some_bind, List.singleton_append,
    recvRun_closePorts, recvRun_append, recvRun_sendIPs, Option.some_bind,
    List.singleton_append, recvRun_closeIPs, List.map_const', recvRun_append,
    recvRun_results, Option.some_bind, doneLoop_eq, recvRun_append, recvRun_dones,
    Option.some_bind]
  rfl

/-! Concrete instances used in witnesses and counterexamples -/

/-- A network in which every dial, write, and read fails. -/
def netRefuseAll : Network :=
  { dial := fun _ _ _ => .error "connection refused"
    writeUDP := fun _ _ => .error "write: connection refused"
    readUDP := fun _ => .error "i/o timeout" }

/-- A network in which every dial, write, and read succeeds. -/
def netAllOk : Network :=
  { dial := fun _ _ _ => .ok ()
    writeUDP := fun _ _ => .ok 4
    readUDP := fun _ => .ok 1 }

/-- A full scan: the 1..65535 port range, one TCP and one UDP worker, one address. -/
def scannerFull : PortScanner :=
  { Domain := "localhost"
    IPs := ["127.0.0.1"]
    Ports := newTargetPorts
    NumWorkers := 1
    PortChannelCap := newTargetPorts.length
    ResultChannelCap := newTargetPorts.length
    OpenPortsCap := newTargetPorts.length
    OpenPortsUDPCap := newTargetPorts.length
    ICMPResultsCap := 1
    DoneCap := 3
    Services := [] }

/-- One scheduling of `scannerFull`: the TCP worker dequeues every port, the UDP
worker none, the single ICMP worker the single address. -/
def execFull : ScanExec :=
  { tcpAsgn := [newTargetPorts], udpAsgn := [[]], icmpAsgn := [["127.0.0.1"]] }

theorem execFull_valid : execFull.Valid scannerFull := by
  refine ⟨rfl, rfl, rfl, ?_, ?_⟩
  · simp [execFull, scannerFull]
  · simp [execFull, scannerFull]

/-- C1: `Scan` closes the three result channels only after it has received exactly
`2×NumWorkers + len(IPs)` completion tokens on the done channel: the launched
workers supply exactly that many tokens, every close of a result channel comes
after a trace prefix containing exactly that many done-channel receives, and when
the workers supply those tokens (and one result token per port) every receive in
`Scan` succeeds, so the scan terminates, for any worker count ≥ 1 and non-empty
address list. -/
theorem scan_closes_only_after_all_done_tokens (t : PortScanner) (net : Network)
    (e : ScanExec) (_hw : 1 ≤ t.NumWorkers) (_hips : t.IPs ≠ []) (hv : e.Valid t) :
    totalDoneTokens net t e = t.NumWorkers * 2 + t.IPs.length ∧
    (∃ pre, t.Scan = pre ++ [Ev.closeOpenTCP, Ev.closeOpenUDP, Ev.closeICMP] ∧
      pre.count Ev.recvDone = t.NumWorkers * 2 + t.IPs.length ∧
      Ev.closeOpenTCP ∉ pre ∧ Ev.closeOpenUDP ∉ pre ∧ Ev.closeICMP ∉ pre) ∧
    recvRun t.Scan t.Ports.length (t.NumWorkers * 2 + t.IPs.length) = some (0, 0) := by
  obtain ⟨h1, h2, h3, h4, h5⟩ := hv
  refine ⟨?_, ?_, recvRun_scanTrace t⟩
  · unfold totalDoneTokens
    rw [tcpOuts_doneTokens, udpOuts_doneTokens, icmpOuts_doneTokens, h1, h2, h3]
    omega
  · have hA : (t.Ports.map Ev.sendPort).count Ev.recvDone = 0 := by
      rw [List.count_eq_zero]
      simp
    have hB : (t.IPs.map Ev.sendIP).count Ev.recvDone = 0 := by
      rw [List.count_eq_zero]
      simp
    have hC : (t.Ports.map (fun _ => Ev.recvResult)).count Ev.recvDone = 0 := by
      rw [List.count_eq_zero]
      simp
    refine ⟨t.Ports.map Ev.sendPort ++ [Ev.closePorts] ++ t.IPs.map Ev.sendIP
      ++ [Ev.closeIPs] ++ t.Ports.map (fun _ => Ev.recvResult)
      ++ doneLoop (t.NumWorkers * 2 + t.IPs.length) 0, ?_, ?_, ?_, ?_, ?_⟩
    · simp [PortScanner.Scan, List.append_assoc]
    · rw [doneLoop_eq]
      simp [List.count_append, hA, hB, hC, List.count_replicate_self,
        List.count_replicate, List.count_cons, List.count_nil]
    · rw [doneLoop_eq]
      simp [List.mem_append, List.mem_replicate]
    · rw [doneLoop_eq]
      simp [List.mem_append, List.mem_replicate]
    · rw [doneLoop_eq]
      simp [List.mem_append, List.mem_replicate]

/-- Witness for C1 at a concrete full scan with one worker per protocol and one
resolved address, every probe refused. -/
theorem scan_closes_only_after_all_done_tokens_witness :
    totalDoneTokens netRefuseAll scannerFull execFull =
      scannerFull.NumWorkers * 2 + scannerFull.IPs.length ∧
    (∃ pre, scannerFull.Scan = pre ++ [Ev.closeOpenTCP, Ev.closeOpenUDP, Ev.closeICMP] ∧
      pre.count Ev.recvDone = scannerFull.NumWorkers * 2 + scannerFull.IPs.length ∧
      Ev.closeOpenTCP ∉ pre ∧ Ev.closeOpenUDP ∉ pre ∧ Ev.closeICMP ∉ pre) ∧
    recvRun scannerFull.Scan scannerFull.Ports.length
      (scannerFull.NumWorkers * 2 + scannerFull.IPs.length) = some (0, 0) :=
  scan_closes_only_after_all_done_tokens scannerFull netRefuseAll execFull
    (by decide) (by decide) execFull_valid

/-- C2: every port in the scanner's port list is sent into the shared port queue
exactly once (exactly as often as it occurs in the list), the queue is closed
only after the last send, each enqueued port is dequeued by exactly one TCP or
UDP worker, each worker sends exactly one token into the generic result queue
per dequeued port regardless of open/closed outcome (so the result tokens are a
permutation of the port list), and the orchestrator drains the generic result
queue exactly `len(ports)` times before waiting for completion tokens. -/
theorem ports_flow_exactly_once (t : PortScanner) (net : Network) (e : ScanExec)
    (hv : e.Valid t) :
    (∀ p : Nat, t.Scan.count (Ev.sendPort p) = t.Ports.count p) ∧
    (∃ post, t.Scan = t.Ports.map Ev.sendPort ++ Ev.closePorts :: post ∧
      ∀ p, Ev.sendPort p ∉ post) ∧
    (∀ p : Nat, (e.tcpAsgn ++ e.udpAsgn).flatten.count p = t.Ports.count p) ∧
    (totalResults net t e).Perm t.Ports ∧
    t.Scan.count Ev.recvResult = t.Ports.length := by
  obtain ⟨h1, h2, h3, h4, h5⟩ := hv
  have hinj : Function.Injective Ev.sendPort := fun a b h => by injection h
  refine ⟨?_, ?_, fun p => h4.count_eq p, ?_, ?_⟩
  · intro p
    unfold PortScanner.Scan
    rw [doneLoop_eq]
    have hm : (t.Ports.map Ev.sendPort).count (Ev.sendPort p) = t.Ports.count p :=
      List.count_map_of_injective _ _ hinj _
    have hB : (t.IPs.map Ev.sendIP).count (Ev.sendPort p) = 0 := by
      rw [List.count_eq_zero]
      simp
    simp [List.count_append, hm, hB, List.count_replicate, List.count_cons,
      List.count_nil]
  · refine ⟨t.IPs.map Ev.sendIP ++ [Ev.closeIPs] ++ t.Ports.map (fun _ => Ev.recvResult)
      ++ doneLoop (t.NumWorkers * 2 + t.IPs.length) 0
      ++ [Ev.closeOpenTCP, Ev.closeOpenUDP, Ev.closeICMP], ?_, ?_⟩
    · simp [PortScanner.Scan, List.append_assoc]
    · intro p
      rw [doneLoop_eq]
      simp [List.mem_append, List.mem_replicate]
  · rw [totalResults_eq]
    exact h4
  · unfold PortScanner.Scan
    rw [doneLoop_eq]
    have hA : (t.Ports.map Ev.sendPort).count Ev.recvResult = 0 := by
      rw [List.count_eq_zero]
      simp
    have hB : (t.IPs.map Ev.sendIP).count Ev.recvResult = 0 := by
      rw [List.count_eq_zero]
      simp
    simp [List.count_append, hA, hB, List.count_replicate, List.count_cons,
      List.count_nil]

/-- Witness for C2 at the concrete full scan `scannerFull` under `execFull`. -/
theorem ports_flow_exactly_once_witness :
    (∀ p : Nat, scannerFull.Scan.count (Ev.sendPort p) = scannerFull.Ports.count p) ∧
    (∃ post, scannerFull.Scan = scannerFull.Ports.map Ev.sendPort ++ Ev.closePorts :: post ∧
      ∀ p, Ev.sendPort p ∉ post) ∧
    (∀ p : Nat, (execFull.tcpAsgn ++ execFull.udpAsgn).flatten.count p =
      scannerFull.Ports.count p) ∧
    (totalResults netRefuseAll scannerFull execFull).Perm scannerFull.Ports ∧
    scannerFull.Scan.count Ev.recvResult = scannerFull.Ports.length :=
  ports_flow_exactly_once scannerFull netRefuseAll execFull execFull_valid

/-! Classification counting (claim C3) -/

theorem tcpStates_fst (net : Network) (t : PortScanner) (e : ScanExec) :
    (tcpStates net t e).map Prod.fst = e.tcpAsgn.flatten := by
  unfold tcpStates tcpOuts
  rw [List.map_flatten, List.map_map, List.map_map]
  conv_rhs => rw [← List.map_id e.tcpAsgn]
  congr 1
  apply List.map_congr_left
  intro a _
  exact WorkerTCP_states_fst net "" t.Services a

theorem udpStates_fst (net : Network) (t : PortScanner) (e : ScanExec) :
    (udpStates net t e).map Prod.fst = e.udpAsgn.flatten := by
  unfold udpStates udpOuts
  rw [List.map_flatten, List.map_map, List.map_map]
  conv_rhs => rw [← List.map_id e.udpAsgn]
  congr 1
  apply List.map_congr_left
  intro a _
  exact WorkerUDP_states_fst net "" t.Services a

/-- C3 (amended): in a full scan, every port 1..65535 receives exactly one
classification in total — by the TCP layer or by the UDP layer, whichever worker
dequeued it from the shared queue — never both and never zero. -/
theorem full_scan_one_classification_per_port (t : PortScanner) (net : Network)
    (e : ScanExec) (hports : t.Ports = newTargetPorts) (hv : e.Valid t)
    (p : Nat) (hp1 : 1 ≤ p) (hp2 : p ≤ 65535) :
    tcpClassCount net t e p + udpClassCount net t e p = 1 := by
  obtain ⟨h1, h2, h3, h4, h5⟩ := hv
  have hmem : p ∈ newTargetPorts := by
    unfold newTargetPorts
    rw [List.mem_range'_1]
    omega
  have hcount : t.Ports.count p = 1 := by
    rw [hports]
    exact List.count_eq_one_of_mem (List.nodup_range' 1 65535) hmem
  unfold tcpClassCount udpClassCount
  rw [tcpStates_fst, udpStates_fst, ← List.count_append, ← List.flatten_append,
    h4.count_eq p, hcount]

/-- Witness for the amended C3 at the concrete full scan. -/
theorem full_scan_one_classification_per_port_witness :
    tcpClassCount netRefuseAll scannerFull execFull 1 +
      udpClassCount netRefuseAll scannerFull execFull 1 = 1 :=
  full_scan_one_classification_per_port scannerFull netRefuseAll execFull rfl
    execFull_valid 1 (by decide) (by decide)

/-- C3 counterexample: in the full scan `scannerFull`, under the valid scheduling
`execFull` in which the TCP worker dequeues every port, port 1 receives no UDP
classification at all, refuting "exactly one UDP classification is recorded for
every port of a full scan". -/
theorem full_scan_not_both_protocols :
    execFull.Valid scannerFull ∧ scannerFull.Ports = newTargetPorts ∧
    1 ∈ scannerFull.Ports ∧
    ¬ udpClassCount netRefuseAll scannerFull execFull 1 = 1 := by
  refine ⟨execFull_valid, rfl, ?_, ?_⟩
  · show (1 : Nat) ∈ newTargetPorts
    unfold newTargetPorts
    rw [List.mem_range'_1]
    omega
  · have h0 : udpClassCount netRefuseAll scannerFull execFull 1 = 0 := rfl
    omega

/-! ICMP records (claim C7) -/

theorem totalICMPResults_eq (net : Network) (e : ScanExec) :
    totalICMPResults net e =
      e.icmpAsgn.flatten.map
        (fun ip => "IP: " ++ ip ++ ", Response: " ++ (ScanICMP net ip).1) := by
  unfold totalICMPResults icmpOuts
  rw [List.map_map, List.map_flatten]
  congr 1
  apply List.map_congr_left
  intro a _
  exact WorkerICMP_results_eq net a

/-- C7 (amended): the ICMP worker instances all consume the shared address
channel, so a single instance may handle zero or several addresses; each
dequeued address produces exactly one echo attempt (one `ip4:icmp` dial with the
5-second timeout) and exactly one ReachabilityRecord, each worker emits exactly
one completion token after the channel closes, one ICMP worker is launched per
resolved address, and across the whole scan exactly one ReachabilityRecord is
produced per resolved address. -/
theorem icmp_one_record_per_address (t : PortScanner) (net : Network) (e : ScanExec)
    (hv : e.Valid t) :
    (totalICMPResults net e).Perm
      (t.IPs.map (fun ip => "IP: " ++ ip ++ ", Response: " ++ (ScanICMP net ip).1)) ∧
    (∀ asgn ∈ e.icmpAsgn, (WorkerICMP net asgn).doneTokens = 1 ∧
      (WorkerICMP net asgn).results.length = asgn.length ∧
      ∀ ip, ((WorkerICMP net asgn).acts).count (NetAct.dial "ip4:icmp" ip 5) =
        asgn.count ip) ∧
    (∀ ip, (((icmpOuts net e).map ICMPOut.acts).flatten).count
      (NetAct.dial "ip4:icmp" ip 5) = t.IPs.count ip) ∧
    e.icmpAsgn.length = t.IPs.length := by
  obtain ⟨h1, h2, h3, h4, h5⟩ := hv
  refine ⟨?_, ?_, ?_, h3⟩
  · rw [totalICMPResults_eq]
    exact h5.map _
  · intro asgn _
    refine ⟨WorkerICMP_doneTokens net asgn, ?_, fun ip => WorkerICMP_acts_dial_count net ip asgn⟩
    rw [WorkerICMP_results_eq, List.length_map]
  · intro ip
    unfold icmpOuts
    rw [List.count_flatten, List.map_map, List.map_map]
    have hc : ∀ a ∈ e.icmpAsgn,
        ((List.count (NetAct.dial "ip4:icmp" ip 5) ∘ ICMPOut.acts) ∘ WorkerICMP net) a =
          List.count ip a :=
      fun a _ => WorkerICMP_acts_dial_count net ip a
    rw [List.map_congr_left hc, ← List.count_flatten, h5.count_eq ip]

/-- A scan target resolving to two addresses, with one worker per protocol. -/
def scannerTwoIPs : PortScanner :=
  { Domain := "example.com"
    IPs := ["192.0.2.1", "192.0.2.2"]
    Ports := [80]
    NumWorkers := 1
    PortChannelCap := 1
    ResultChannelCap := 1
    OpenPortsCap := 1
    OpenPortsUDPCap := 1
    ICMPResultsCap := 2
    DoneCap := 4
    Services := [] }

/-- A scheduling of `scannerTwoIPs` in which the first ICMP worker dequeues both
addresses and the second dequeues none. -/
def execTwoIPs : ScanExec :=
  { tcpAsgn := [[80]], udpAsgn := [[]], icmpAsgn := [["192.0.2.1", "192.0.2.2"], []] }

theorem execTwoIPs_valid : execTwoIPs.Valid scannerTwoIPs := by
  refine ⟨rfl, rfl, rfl, ?_, ?_⟩
  · simp [execTwoIPs, scannerTwoIPs]
  · simp [execTwoIPs, scannerTwoIPs]

/-- Witness for the amended C7 at the two-address scan under the scheduling where
one ICMP worker takes both addresses. -/
theorem icmp_one_record_per_address_witness :
    (totalICMPResults netRefuseAll execTwoIPs).Perm
      (scannerTwoIPs.IPs.map
        (fun ip => "IP: " ++ ip ++ ", Response: " ++ (ScanICMP netRefuseAll ip).1)) ∧
    (∀ asgn ∈ execTwoIPs.icmpAsgn, (WorkerICMP netRefuseAll asgn).doneTokens = 1 ∧
      (WorkerICMP netRefuseAll asgn).results.length = asgn.length ∧
      ∀ ip, ((WorkerICMP netRefuseAll asgn).acts).count (NetAct.dial "ip4:icmp" ip 5) =
        asgn.count ip) ∧
    (∀ ip, (((icmpOuts netRefuseAll execTwoIPs).map ICMPOut.acts).flatten).count
      (NetAct.dial "ip4:icmp" ip 5) = scannerTwoIPs.IPs.count ip) ∧
    execTwoIPs.icmpAsgn.length = scannerTwoIPs.IPs.length :=
  icmp_one_record_per_address scannerTwoIPs netRefuseAll execTwoIPs execTwoIPs_valid

/-- C7 counterexample: under the valid scheduling `execTwoIPs` a single ICMP
worker instance dequeues both resolved addresses and emits two
ReachabilityRecords, refuting "each ICMP worker instance is bound to exactly one
resolved address ... and emits exactly one ReachabilityRecord". -/
theorem icmp_worker_not_bound_to_one_address :
    execTwoIPs.Valid scannerTwoIPs ∧
    ["192.0.2.1", "192.0.2.2"] ∈ execTwoIPs.icmpAsgn ∧
    (WorkerICMP netRefuseAll ["192.0.2.1", "192.0.2.2"]).results.length = 2 ∧
    ¬ (WorkerICMP netRefuseAll ["192.0.2.1", "192.0.2.2"]).results.length = 1 := by
  have h2 : (WorkerICMP netRefuseAll ["192.0.2.1", "192.0.2.2"]).results.length = 2 := rfl
  refine ⟨execTwoIPs_valid, ?_, h2, ?_⟩
  · simp [execTwoIPs]
  · omega

/-! Service-record round trip (claim C8) -/

/-- C8: every ServiceRecord that reaches the open-TCP or open-UDP result channel
has a port that is a member of the originally enqueued port set, and a service
equal to the static lookup table's entry for that port (the fallback name when
the port is absent from the table). -/
theorem serviceRecord_round_trip (t : PortScanner) (net : Network) (e : ScanExec)
    (hv : e.Valid t) :
    ∀ sv ∈ totalOpenTCP net t e ++ totalOpenUDP net t e,
      sv.Port ∈ t.Ports ∧ sv.Service = (DetectService sv.Port t.Services).Service := by
  obtain ⟨h1, h2, h3, h4, h5⟩ := hv
  intro sv hsv
  rw [List.mem_append] at hsv
  have key : ∃ p, p ∈ (e.tcpAsgn ++ e.udpAsgn).flatten ∧ sv = DetectService p t.Services := by
    rcases hsv with h | h
    · unfold totalOpenTCP tcpOuts at h
      rw [List.mem_flatten] at h
      obtain ⟨l, hl, hsvl⟩ := h
      rw [List.map_map, List.mem_map] at hl
      obtain ⟨a, ha, rfl⟩ := hl
      obtain ⟨p, hp, hsvp⟩ := WorkerTCP_openPorts_mem net "" t.Services a sv hsvl
      exact ⟨p, List.mem_flatten_of_mem (List.mem_append_left _ ha) hp, hsvp⟩
    · unfold totalOpenUDP udpOuts at h
      rw [List.mem_flatten] at h
      obtain ⟨l, hl, hsvl⟩ := h
      rw [List.map_map, List.mem_map] at hl
      obtain ⟨a, ha, rfl⟩ := hl
      obtain ⟨p, hp, hsvp⟩ := WorkerUDP_openPorts_mem net "" t.Services a sv hsvl
      exact ⟨p, List.mem_flatten_of_mem (List.mem_append_right _ ha) hp, hsvp⟩
  obtain ⟨p, hp, rfl⟩ := key
  rw [DetectService_Port]
  exact ⟨h4.mem_iff.1 hp, rfl⟩

/-- Witness for C8: with every probe succeeding, the record for port 80 reaches
the open-TCP channel of the two-address scan and round-trips through the table. -/
theorem serviceRecord_round_trip_witness :
    (DetectService 80 scannerTwoIPs.Services).Port ∈ scannerTwoIPs.Ports ∧
    (DetectService 80 scannerTwoIPs.Services).Service =
      (DetectService (DetectService 80 scannerTwoIPs.Services).Port
        scannerTwoIPs.Services).Service :=
  serviceRecord_round_trip scannerTwoIPs netAllOk execTwoIPs execTwoIPs_valid
    (DetectService 80 scannerTwoIPs.Services) (by decide)

/-! Channel capacities (claim C9) -/

/-- Capacity of the IP channel created at the start of `Scan` (src/main.go:253):
`make(chan string, len(t.IPs))`. -/
def scanIPChannelCap (t : PortScanner) : Nat := t.IPs.length

theorem totalOpenTCP_length_le (net : Network) (t : PortScanner) (e : ScanExec) :
    (totalOpenTCP net t e).length ≤ e.tcpAsgn.flatten.length := by
  unfold totalOpenTCP tcpOuts
  rw [List.length_flatten, List.map_map, List.map_map, List.length_flatten]
  apply List.sum_le_sum
  intro a _
  exact WorkerTCP_openPorts_length net "" t.Services a

theorem totalOpenUDP_length_le (net : Network) (t : PortScanner) (e : ScanExec) :
    (totalOpenUDP net t e).length ≤ e.udpAsgn.flatten.length := by
  unfold totalOpenUDP udpOuts
  rw [List.length_flatten, List.map_map, List.map_map, List.length_flatten]
  apply List.sum_le_sum
  intro a _
  exact WorkerUDP_openPorts_length net "" t.Services a

/-- C9: for a scanner built by `NewTarget` — possibly with its port list
overridden by a shorter one, as the tests do — every channel's buffer capacity is
at least the number of values ever sent on it: ports, result tokens, open-TCP
records, open-UDP records, ICMP results, IP-channel sends, and completion
tokens, so no send can block on a full channel. -/
theorem channel_capacity_bounds (lookupHost : String → Except String (List String))
    (services : List (Nat × String)) (domain : String) (w : Nat) (t0 : PortScanner)
    (hok : NewTarget lookupHost services domain w = .ok t0)
    (ports' : List Nat) (hlen : ports'.length ≤ 65535)
    (net : Network) (e : ScanExec) (hv : e.Valid { t0 with Ports := ports' }) :
    ports'.length ≤ t0.PortChannelCap ∧
    (totalResults net { t0 with Ports := ports' } e).length ≤ t0.ResultChannelCap ∧
    (totalOpenTCP net { t0 with Ports := ports' } e).length ≤ t0.OpenPortsCap ∧
    (totalOpenUDP net { t0 with Ports := ports' } e).length ≤ t0.OpenPortsUDPCap ∧
    (totalICMPResults net e).length ≤ t0.ICMPResultsCap ∧
    t0.IPs.length ≤ scanIPChannelCap { t0 with Ports := ports' } ∧
    totalDoneTokens net { t0 with Ports := ports' } e ≤ t0.DoneCap := by
  unfold NewTarget at hok
  cases hres : lookupHost domain with
  | error err =>
    rw [hres] at hok
    exact absurd hok (by simp)
  | ok ips =>
    rw [hres] at hok
    have hcap : t0.PortChannelCap = newTargetPorts.length ∧
        t0.ResultChannelCap = newTargetPorts.length ∧
        t0.OpenPortsCap = newTargetPorts.length ∧
        t0.OpenPortsUDPCap = newTargetPorts.length ∧
        t0.ICMPResultsCap = ips.length ∧
        t0.DoneCap = w * 2 + ips.length ∧
        t0.IPs = ips ∧ t0.NumWorkers = w := by
      injection hok with hok
      rw [← hok]
      exact ⟨rfl, rfl, rfl, rfl, rfl, rfl, rfl, rfl⟩
    obtain ⟨hc1, hc2, hc3, hc4, hc5, hc6, hc7, hc8⟩ := hcap
    obtain ⟨h1, h2, h3, h4, h5⟩ := hv
    have h1' : e.tcpAsgn.length = t0.NumWorkers := h1
    have h2' : e.udpAsgn.length = t0.NumWorkers := h2
    have h3' : e.icmpAsgn.length = t0.IPs.length := h3
    have h4' : (e.tcpAsgn ++ e.udpAsgn).flatten.Perm ports' := h4
    have h5' : e.icmpAsgn.flatten.Perm t0.IPs := h5
    have hlen65535 : newTargetPorts.length = 65535 := by
      unfold newTargetPorts
      rw [List.length_range']
    have hflat : (e.tcpAsgn ++ e.udpAsgn).flatten.length = ports'.length := h4'.length_eq
    have hsplit : e.tcpAsgn.flatten.length + e.udpAsgn.flatten.length = ports'.length := by
      rw [← hflat, List.flatten_append, List.length_append]
    refine ⟨?_, ?_, ?_, ?_, ?_, le_refl _, ?_⟩
    · rw [hc1, hlen65535]
      exact hlen
    · rw [totalResults_eq, hflat, hc2, hlen65535]
      exact hlen
    · calc (totalOpenTCP net { t0 with Ports := ports' } e).length
          ≤ e.tcpAsgn.flatten.length := totalOpenTCP_length_le net _ e
        _ ≤ 65535 := by omega
        _ = newTargetPorts.length := hlen65535.symm
        _ = t0.OpenPortsCap := hc3.symm
    · calc (totalOpenUDP net { t0 with Ports := ports' } e).length
          ≤ e.udpAsgn.flatten.length := totalOpenUDP_length_le net _ e
        _ ≤ 65535 := by omega
        _ = newTargetPorts.length := hlen65535.symm
        _ = t0.OpenPortsUDPCap := hc4.symm
    · rw [totalICMPResults_eq, List.length_map, h5'.length_eq, hc5, hc7]
    · unfold totalDoneTokens
      rw [tcpOuts_doneTokens, udpOuts_doneTokens, icmpOuts_doneTokens,
        h1', h2', h3', hc6, hc7, hc8]
      omega

/-- A resolver that returns the loopback address for every domain. -/
def lookupLocal : String → Except String (List String) := fun _ => .ok ["127.0.0.1"]

/-- The overridden (test-style) short port list. -/
def portsSmall : List Nat := [80, 9999]

/-- A scheduling for `scannerFull` with its ports overridden to `portsSmall`. -/
def execSmall : ScanExec :=
  { tcpAsgn := [portsSmall], udpAsgn := [[]], icmpAsgn := [["127.0.0.1"]] }

theorem execSmall_valid : execSmall.Valid { scannerFull with Ports := portsSmall } := by
  refine ⟨rfl, rfl, rfl, ?_, ?_⟩
  · simp [execSmall, scannerFull, portsSmall]
  · simp [execSmall, scannerFull]

/-- Witness for C9 at a `NewTarget`-built scanner with the port list overridden
to the test's `{80, 9999}`, all probes succeeding. -/
theorem channel_capacity_bounds_witness :
    portsSmall.length ≤ scannerFull.PortChannelCap ∧
    (totalResults netAllOk { scannerFull with Ports := portsSmall } execSmall).length ≤
      scannerFull.ResultChannelCap ∧
    (totalOpenTCP netAllOk { scannerFull with Ports := portsSmall } execSmall).length ≤
      scannerFull.OpenPortsCap ∧
    (totalOpenUDP netAllOk { scannerFull with Ports := portsSmall } execSmall).length ≤
      scannerFull.OpenPortsUDPCap ∧
    (totalICMPResults netAllOk execSmall).length ≤ scannerFull.ICMPResultsCap ∧
    scannerFull.IPs.length ≤ scanIPChannelCap { scannerFull with Ports := portsSmall } ∧
    totalDoneTokens netAllOk { scannerFull with Ports := portsSmall } execSmall ≤
      scannerFull.DoneCap :=
  channel_capacity_bounds lookupLocal [] "localhost" 1 scannerFull rfl portsSmall
    (by decide) netAllOk execSmall execSmall_valid

/-! Error handling (claims C4, C5, C6, C10) -/

/-- C4: a resolution error makes `NewTarget` return that error — no scanner
state is constructed — while individual probe failures are never surfaced as
errors: the probe functions always return a plain classification string, and the
workers process every dequeued item regardless of probe outcomes. -/
theorem resolution_fatal_probe_failures_benign :
    (∀ (lookupHost : String → Except String (List String))
      (services : List (Nat × String)) (domain : String) (w : Nat) (err : String),
      lookupHost domain = .error err →
      NewTarget lookupHost services domain w = .error err) ∧
    (∀ (net : Network) (ip : String) (port : Nat),
      (ScanPortTCP net ip port).1 = "Open" ∨ (ScanPortTCP net ip port).1 = "Closed") ∧
    (∀ (net : Network) (ip : String),
      (ScanICMP net ip).1 = "Reachable" ∨ (ScanICMP net ip).1 = "Unreachable") ∧
    (∀ (net : Network) (ip : String) (services : List (Nat × String)) (asgn : List Nat),
      (WorkerTCP net ip services asgn).results = asgn) ∧
    (∀ (net : Network) (domain : String) (services : List (Nat × String))
      (asgn : List Nat), (WorkerUDP net domain services asgn).results = asgn) := by
  refine ⟨?_, ?_, ?_, fun net ip s a => WorkerTCP_results net ip s a,
    fun net d s a => WorkerUDP_results net d s a⟩
  · intro lookupHost services domain w err h
    unfold NewTarget
    rw [h]
  · intro net ip port
    unfold ScanPortTCP
    cases h : net.dial "tcp" (ip ++ ":" ++ toString port) 10 <;> simp [h]
  · intro net ip
    unfold ScanICMP
    cases h : net.dial "ip4:icmp" ip 5 <;> simp [h]

/-- Witness for C4: a failing resolver makes `NewTarget` fail with its error. -/
theorem resolution_fatal_probe_failures_benign_witness :
    NewTarget (fun _ => .error "no such host") [] "nosuchhost.invalid" 100 =
      .error "no such host" :=
  resolution_fatal_probe_failures_benign.1 (fun _ => .error "no such host") []
    "nosuchhost.invalid" 100 "no such host" rfl

/-- C5: `ScanPortTCP` returns exactly one of "Open" and "Closed"; "Open" exactly
when the dial with the 10-second timeout succeeds (the connection is then
immediately closed), and "Closed" for every dial error, without distinguishing
between errors. -/
theorem scanPortTCP_open_iff_dial (net : Network) (ip : String) (port : Nat) :
    ((ScanPortTCP net ip port).1 = "Open" ∨ (ScanPortTCP net ip port).1 = "Closed") ∧
    ((ScanPortTCP net ip port).1 = "Open" ↔
      net.dial "tcp" (ip ++ ":" ++ toString port) 10 = .ok ()) ∧
    ((ScanPortTCP net ip port).1 = "Open" →
      (ScanPortTCP net ip port).2 =
        [NetAct.dial "tcp" (ip ++ ":" ++ toString port) 10, NetAct.closeConn]) ∧
    (∀ err, net.dial "tcp" (ip ++ ":" ++ toString port) 10 = .error err →
      (ScanPortTCP net ip port).1 = "Closed") := by
  unfold ScanPortTCP
  cases h : net.dial "tcp" (ip ++ ":" ++ toString port) 10 with
  | error err => simp [h]
  | ok u =>
    cases u
    simp [h]

/-- Witness for C5: with every dial refused, port 80 on 127.0.0.1 is "Closed". -/
theorem scanPortTCP_open_iff_dial_witness :
    (ScanPortTCP netRefuseAll "127.0.0.1" 80).1 = "Closed" :=
  (scanPortTCP_open_iff_dial netRefuseAll "127.0.0.1" 80).2.2.2 "connection refused" rfl

/-- C6: the UDP worker classifies a dequeued port "Open" and emits the service
record exactly when `ScanUDP` returns `ok`, i.e. when the dial, the payload
write, and the deadline-bounded read all succeed; every error yields "Closed"
with no record emitted. -/
theorem workerUDP_open_iff_reply (net : Network) (domain : String)
    (services : List (Nat × String)) (port : Nat) (rest : List Nat) :
    ((ScanUDP net port domain).1 = .ok () ↔
      (net.dial "udp" (domain ++ ":" ++ toString port) 5 = .ok () ∧
       (∃ n, net.writeUDP (domain ++ ":" ++ toString port) "ping" = .ok n) ∧
       (∃ n, net.readUDP (domain ++ ":" ++ toString port) = .ok n))) ∧
    ((ScanUDP net port domain).1 = .ok () →
      (WorkerUDP net domain services (port :: rest)).openPorts =
        DetectService port services :: (WorkerUDP net domain services rest).openPorts ∧
      (WorkerUDP net domain services (port :: rest)).states =
        (port, "Open") :: (WorkerUDP net domain services rest).states) ∧
    (∀ err, (ScanUDP net port domain).1 = .error err →
      (WorkerUDP net domain services (port :: rest)).openPorts =
        (WorkerUDP net domain services rest).openPorts ∧
      (WorkerUDP net domain services (port :: rest)).states =
        (port, "Closed") :: (WorkerUDP net domain services rest).states) := by
  cases hd : net.dial "udp" (domain ++ ":" ++ toString port) 5 with
  | error e => simp [WorkerUDP, ScanUDP, hd]
  | ok u =>
    cases u
    cases hw : net.writeUDP (domain ++ ":" ++ toString port) "ping" with
    | error e => simp [WorkerUDP, ScanUDP, hd, hw]
    | ok n =>
      cases hr : net.readUDP (domain ++ ":" ++ toString port) with
      | error e => simp [WorkerUDP, ScanUDP, hd, hw, hr]
      | ok m => simp [WorkerUDP, ScanUDP, hd, hw, hr]

/-- Witness for C6: with every dial, write, and read succeeding, the worker
records port 53 as open with its service record. -/
theorem workerUDP_open_iff_reply_witness :
    (WorkerUDP netAllOk "localhost" [(53, "DNS")] [53]).openPorts =
      DetectService 53 [(53, "DNS")] ::
        (WorkerUDP netAllOk "localhost" [(53, "DNS")] []).openPorts ∧
    (WorkerUDP netAllOk "localhost" [(53, "DNS")] [53]).states =
      (53, "Open") :: (WorkerUDP netAllOk "localhost" [(53, "DNS")] []).states :=
  (workerUDP_open_iff_reply netAllOk "localhost" [(53, "DNS")] 53 []).2.1 rfl

/-- C10: `ScanICMP` classifies by dial success alone — "Reachable" exactly when
the `ip4:icmp` dial with the 5-second timeout succeeds — and performs no write,
no read, and sets no read deadline on the connection. -/
theorem scanICMP_dial_only (net : Network) (ip : String) :
    ((ScanICMP net ip).1 = "Reachable" ↔ net.dial "ip4:icmp" ip 5 = .ok ()) ∧
    ((ScanICMP net ip).1 = "Reachable" ∨ (ScanICMP net ip).1 = "Unreachable") ∧
    (∀ a ∈ (ScanICMP net ip).2, (∀ s, a ≠ NetAct.write s) ∧ a ≠ NetAct.read ∧
      ∀ n, a ≠ NetAct.setReadDeadline n) ∧
    (ScanICMP net ip).2.head? = some (NetAct.dial "ip4:icmp" ip 5) := by
  unfold ScanICMP
  cases h : net.dial "ip4:icmp" ip 5 with
  | error err =>
    refine ⟨by simp, Or.inr rfl, ?_, rfl⟩
    intro a ha
    simp at ha
    simp [ha]
  | ok u =>
    cases u
    refine ⟨by simp [h], Or.inl rfl, ?_, rfl⟩
    intro a ha
    simp at ha
    rcases ha with ha | ha <;> simp [ha]

/-- Witness for C10: the only actions of a successful ICMP probe are the dial and
the close — in particular the dial action is neither a write nor a read. -/
theorem scanICMP_dial_only_witness :
    (∀ s, NetAct.dial "ip4:icmp" "127.0.0.1" 5 ≠ NetAct.write s) ∧
    NetAct.dial "ip4:icmp" "127.0.0.1" 5 ≠ NetAct.read ∧
    (∀ n, NetAct.dial "ip4:icmp" "127.0.0.1" 5 ≠ NetAct.setReadDeadline n) :=
  (scanICMP_dial_only netAllOk "127.0.0.1").2.2.1 (NetAct.dial "ip4:icmp" "127.0.0.1" 5)
    (by exact List.mem_cons_self _ _)
